import Mathlib

/-!
Verification development for the wake session subsystem
(`src/plugins/wake/sessions.ts`): the event normalizer, the ngrok-backed
viewer-URL resolution, and the `SessionManager` (spawn / kill / event
handling / WebSocket fan-out).  Each TypeScript function is translated
into an executable Lean definition; the spec-level properties are proved
or refuted against those definitions.

Modelling conventions:
* JS strings are Lean `String`s; `str.length` is the character count and
  `str.slice(0, n)` is `strTake`.
* JS `undefined` for an optional field is `Option.none`; JS string
  truthiness (`if (str)`) is the test `s ≠ ""` on present strings.
* The `Map<string, Session>` registry is an association list with
  `Map.get`/`Map.set` semantics (`getS` / `setS`: `set` replaces an
  existing key in place, otherwise appends).
* A WebSocket is a `Client` record carrying its `readyState`
  (`isOpen`) and the ordered list of messages sent to it (`sent`);
  `ws.send` appends to `sent`.
* Nondeterministic environment outcomes (the awaited ngrok lookup, the
  OS spawn, `Date.now`, `Math.random`, whether `process.kill` throws)
  enter as explicit oracle arguments.
* The async boundary inside `spawnSession` — everything up to the
  `await getNgrokUrl()` versus everything after it — is split into
  `spawnCheck` and `spawnFinish`; `spawnSessionSeq` chains them
  back-to-back, which is the non-interleaved execution.
-/

namespace Wake

/-- Session lifecycle status, `type SessionStatus = "running" | "complete" | "error"`. -/
inductive SessionStatus
  | running
  | complete
  | error
deriving DecidableEq, Repr

/-- The `input` value of a `tool_use` content block as `normalizeEvent` sees it:
either a JS string (`typeof item.input === "string"`), or any other defined
value, carried as its `JSON.stringify(input, null, 2)` serialization.
An absent (`undefined`) input is `Option.none` on the `input` field itself
(`JSON.stringify(undefined, null, 2)` is `undefined`, which `truncate` maps to `""`). -/
inductive InputVal
  | str (s : String)
  | json (serialized : String)
deriving DecidableEq, Repr

/-- One element of `raw.message.content`: the fields the normalizer shape-sniffs
(`type`, `text?`, `name?`, `input?`, `content?`). -/
structure ContentBlock where
  type : String
  text : Option String := none
  name : Option String := none
  input : Option InputVal := none
  content : Option String := none
deriving DecidableEq, Repr

/-- A raw structured record parsed from one stdout line
(`interface StreamEvent { type; subtype?; [key: string]: unknown }`),
restricted to the keys the code reads: `type`, `subtype`,
`message.content`, `result`, `duration_ms`, `total_cost_usd`, `error`.
`message` is `none` when `message` or `message.content` is absent. -/
structure StreamEvent where
  type : String
  subtype : Option String := none
  message : Option (List ContentBlock) := none
  result : Option String := none
  duration_ms : Option Nat := none
  total_cost_usd : Option Rat := none
  errorField : Option String := none
deriving DecidableEq, Repr

/-- Normalized event union (`type NormalizedEvent`). -/
inductive NormalizedEvent
  | assistant (text : String)
  | tool_use (tool : String) (input : String)
  | tool_result (output : String)
  | complete (result : String) (duration_ms : Option Nat) (cost : Option Rat)
deriving DecidableEq, Repr

/-- Embedding of `str.slice(0, n)`: the first `n` characters. -/
def strTake (s : String) (n : Nat) : String :=
  String.mk (s.data.take n)

/-- The elision marker template literal
`` `\n... (truncated, ${str.length - maxLen} more chars)` ``. -/
def truncMarker (cut : Nat) : String :=
  "\n... (truncated, " ++ toString cut ++ " more chars)"

/-- `truncate(str, maxLen = 2000)`.  The argument is an `Option` because the
tool_use branch can pass `undefined` (via `JSON.stringify` of `undefined`);
`if (!str) return ""` covers both `undefined` and the empty string. -/
def truncate (str : Option String) (maxLen : Nat := 2000) : String :=
  match str with
  | none => ""
  | some s =>
    if s.length = 0 then ""
    else if s.length ≤ maxLen then s
    else strTake s maxLen ++ truncMarker (s.length - maxLen)

/-- The `input` serialization inside the tool_use branch:
`typeof item.input === "string" ? truncate(item.input) : truncate(JSON.stringify(item.input, null, 2))`. -/
def toolInputString : Option InputVal → String
  | some (InputVal.str s) => truncate (some s)
  | some (InputVal.json ser) => truncate (some ser)
  | none => truncate none

/-- `normalizeEvent(raw)`: system records map to nothing; assistant records
yield one `assistant` per truthy text block and one `tool_use` per truthy-named
tool block; user records yield one `tool_result` per tool_result block;
`result` records yield one `complete`.  The three non-system branches are
independent `if`s in the source; at most one fires since `raw.type` is a
single string, so their outputs are concatenated here. -/
def normalizeEvent (raw : StreamEvent) : List NormalizedEvent :=
  if raw.type = "system" then []
  else
    (if raw.type = "assistant" then
      match raw.message with
      | some content =>
        content.flatMap (fun item =>
          (if item.type = "text" then
            match item.text with
            | some t => if t = "" then [] else [NormalizedEvent.assistant t]
            | none => []
          else []) ++
          (if item.type = "tool_use" then
            match item.name with
            | some n => if n = "" then [] else [NormalizedEvent.tool_use n (toolInputString item.input)]
            | none => []
          else []))
      | none => []
    else []) ++
    (if raw.type = "user" then
      match raw.message with
      | some content =>
        content.flatMap (fun item =>
          if item.type = "tool_result" then
            [NormalizedEvent.tool_result (truncate (some (item.content.getD "")))]
          else [])
      | none => []
    else []) ++
    (if raw.type = "result" then
      [NormalizedEvent.complete (truncate (some (raw.result.getD "")) 4000)
        raw.duration_ms raw.total_cost_usd]
    else [])

/-- `getNormalizedEvents(session, fromIndex = 0)` works on the raw event list:
`session.events.slice(fromIndex).flatMap(normalizeEvent)`. -/
def getNormalizedEventsList (events : List StreamEvent) (fromIndex : Nat := 0) : List NormalizedEvent :=
  (events.drop fromIndex).flatMap normalizeEvent

/-- A server-originated WebSocket message (`{type:"server", event: ...}` objects). -/
inductive ServerNote
  | connected (sessionId : String)
  | errorNote (message : String)
  | killed (sessionId : String)
  | disconnected (reason : String)
deriving DecidableEq, Repr

/-- A message written to a WebSocket: either a raw stream event (replayed or
broadcast verbatim) or a server note. -/
inductive WireMsg
  | raw (e : StreamEvent)
  | note (n : ServerNote)
deriving DecidableEq, Repr

/-- A WebSocket client: identity, `readyState === WebSocket.OPEN`, and the
ordered list of messages sent to it. -/
structure Client where
  cid : Nat
  isOpen : Bool
  sent : List WireMsg
deriving DecidableEq, Repr

/-- `interface Session` (second, WebSocket-bearing variant).  The raw
`ChildProcess` handle is not modelled; its observable signals (exit, error,
stdout lines) enter through `onExit` / `onProcError` / `processLine`.
`startTime` is the `Date.now`-derived instant, opaque here. -/
structure Session where
  sessionId : String
  project : String
  projectPath : String
  task : String
  pid : Nat
  startTime : Nat
  status : SessionStatus
  events : List StreamEvent
  result : Option String := none
  error : Option String := none
  clients : List Client
deriving DecidableEq, Repr

/-- One entry of `WakeConfig.projects`. -/
structure ProjectEntry where
  name : String
  path : String
  description : Option String := none
deriving DecidableEq, Repr

/-- `interface WakeConfig`. -/
structure WakeConfig where
  maxConcurrentSessions : Nat
  projects : List ProjectEntry
deriving DecidableEq, Repr

/-- The `Map<string, Session>` registry as an association list with unique
keys maintained by `setS`. -/
abbrev SessionTable := List (String × Session)

/-- `sessions.get(sessionId)`. -/
def getS (l : SessionTable) (sid : String) : Option Session :=
  match l.find? (fun kv => kv.1 == sid) with
  | some kv => some kv.2
  | none => none

/-- `sessions.set(sessionId, s)`: replace the entry in place when the key is
present, otherwise append. -/
def setS (l : SessionTable) (sid : String) (s : Session) : SessionTable :=
  if (l.find? (fun kv => kv.1 == sid)).isSome then
    l.map (fun kv => if kv.1 == sid then (sid, s) else kv)
  else
    l ++ [(sid, s)]

/-- The mutable state of one `SessionManager`. -/
structure ManagerState where
  sessions : SessionTable
  config : WakeConfig
deriving DecidableEq, Repr

/-- `getRunningSessionCount()`. -/
def runningCount (l : SessionTable) : Nat :=
  (l.filter (fun kv => kv.2.status == SessionStatus.running)).length

/-- `canSpawnSession()`. -/
def canSpawnSession (st : ManagerState) : Bool :=
  runningCount st.sessions < st.config.maxConcurrentSessions

/-- `resolveProjectPath(projectName)`: `projectMap` is a JS `Map` built from
`config.projects`, so a duplicated name keeps the last entry; `?.path || null`
turns an empty path into `null`. -/
def resolveProjectPath (cfg : WakeConfig) (projectName : String) : Option String :=
  match cfg.projects.reverse.find? (fun p => p.name == projectName) with
  | some p => if p.path = "" then none else some p.path
  | none => none

/-- `generateSessionId()` as a function of its two environment reads
(`Math.floor(Date.now() / 1000)` and the six-char `Math.random` suffix). -/
def generateSessionId (timestamp : Nat) (random : String) : String :=
  "wake-" ++ toString timestamp ++ "-" ++ random

/-- Append `msg` to every client whose `readyState` is OPEN — the loop body of
`broadcast`. -/
def appendOpen (msg : WireMsg) (cs : List Client) : List Client :=
  cs.map (fun c => if c.isOpen then { c with sent := c.sent ++ [msg] } else c)

/-- `broadcast(sessionId, event)`: look the session up, send to every OPEN
client; missing session is a no-op. -/
def broadcast (st : ManagerState) (sid : String) (msg : WireMsg) : ManagerState :=
  match getS st.sessions sid with
  | none => st
  | some session =>
    { st with sessions := setS st.sessions sid { session with clients := appendOpen msg session.clients } }

/-- The session mutation performed by `handleEvent` before broadcasting:
push the event, and if it is a terminal `result` record set status/result
(and error text for non-success subtypes, `(event.error as string) || "Unknown error"`). -/
def eventApply (s : Session) (event : StreamEvent) : Session :=
  let s1 := { s with events := s.events ++ [event] }
  if event.type = "result" then
    if event.subtype = some "success" then
      { s1 with status := SessionStatus.complete, result := event.result }
    else
      { s1 with status := SessionStatus.error, result := event.result,
                error := some (match event.errorField with
                               | some e => if e = "" then "Unknown error" else e
                               | none => "Unknown error") }
  else s1

/-- `handleEvent(sessionId, event)`: store the event, update terminal state,
then broadcast the raw event to all connected clients. -/
def handleEvent (st : ManagerState) (sid : String) (event : StreamEvent) : ManagerState :=
  match getS st.sessions sid with
  | none => st
  | some session =>
    broadcast { st with sessions := setS st.sessions sid (eventApply session event) }
      sid (WireMsg.raw event)

/-- The `rl.on("line", ...)` handler: `JSON.parse` inside `try`, forwarding a
parsed record to `handleEvent`; the `catch` for a non-JSON line does nothing.
The parse itself is an oracle `parseJson : String → Option StreamEvent`
(`none` models a thrown `SyntaxError`). -/
def processLine (parseJson : String → Option StreamEvent) (st : ManagerState)
    (sid : String) (line : String) : ManagerState :=
  match parseJson line with
  | some event => handleEvent st sid event
  | none => st

/-- Result of `addClient`: either the socket was rejected (messages written to
it, then closed) for an unknown session id, or it was registered. -/
inductive AddClientResult
  | rejected (sentToWs : List WireMsg) (closed : Bool)
  | accepted
deriving DecidableEq, Repr

/-- `addClient(sessionId, ws)`: unknown id sends one error note and closes;
known id adds the (fresh) socket to the session's client set, sends the
connection confirmation, then replays the full event history to that socket. -/
def addClient (st : ManagerState) (sid : String) (c : Client) :
    AddClientResult × ManagerState :=
  match getS st.sessions sid with
  | none =>
    (AddClientResult.rejected [WireMsg.note (ServerNote.errorNote "Session not found")] true, st)
  | some session =>
    let c1 := { c with sent := c.sent ++ WireMsg.note (ServerNote.connected sid) :: session.events.map WireMsg.raw }
    (AddClientResult.accepted,
     { st with sessions := setS st.sessions sid { session with clients := session.clients ++ [c1] } })

/-- The `ws.on("close")` handler installed by `addClient`: deregistration. -/
def removeClient (st : ManagerState) (sid : String) (cid : Nat) : ManagerState :=
  match getS st.sessions sid with
  | none => st
  | some session =>
    let session1 := { session with clients := session.clients.filter (fun c => !(c.cid == cid)) }
    { st with sessions := setS st.sessions sid session1 }

/-- Return value of `killSession`. -/
structure KillResult where
  success : Bool
  error : Option String := none
deriving DecidableEq, Repr

/-- `killSession(sessionId)`.  `sigtermThrows` is the oracle for whether
`process.kill(pid, "SIGTERM")` throws (e.g. the process is already gone);
the signal is only sent when the status is still `running`, and a throw is
caught and reported as success with no state change.  Otherwise status is
set to `complete` unconditionally and a "killed" note is broadcast.  The
5-second SIGKILL escalation timer touches only the OS process, not session
state, and is not modelled. -/
def killSession (st : ManagerState) (sid : String) (sigtermThrows : Bool) :
    KillResult × ManagerState :=
  match getS st.sessions sid with
  | none => ({ success := false, error := some ("Session '" ++ sid ++ "' not found") }, st)
  | some session =>
    if session.status = SessionStatus.running ∧ sigtermThrows then
      ({ success := true }, st)
    else
      let st1 := { st with sessions := setS st.sessions sid { session with status := SessionStatus.complete } }
      ({ success := true }, broadcast st1 sid (WireMsg.note (ServerNote.killed sid)))

/-- The `childProcess.on("exit", ...)` observer: only a still-`running`
session is updated (status from the exit code, synthesized error text for a
nonzero code) and a synthetic `disconnected` note broadcast. -/
def onExit (st : ManagerState) (sid : String) (code : Int) : ManagerState :=
  match getS st.sessions sid with
  | none => st
  | some s =>
    if s.status = SessionStatus.running then
      let reason := "Process exited with code " ++ toString code
      let s1 := if code = 0 then { s with status := SessionStatus.complete }
                else { s with status := SessionStatus.error, error := some reason }
      broadcast { st with sessions := setS st.sessions sid s1 } sid
        (WireMsg.note (ServerNote.disconnected reason))
    else st

/-- The `childProcess.on("error", ...)` observer: unconditionally marks the
session `error` and broadcasts an error note — with no guard on a status
that is already terminal. -/
def onProcError (st : ManagerState) (sid : String) (msg : String) : ManagerState :=
  match getS st.sessions sid with
  | none => st
  | some s =>
    broadcast { st with sessions := setS st.sessions sid { s with status := SessionStatus.error, error := some msg } }
      sid (WireMsg.note (ServerNote.errorNote msg))

/-- Outcome of the OS `spawn` call: a pid, a spawned handle with no pid, or a
synchronous throw. -/
inductive SpawnOutcome
  | ok (pid : Nat)
  | noPid
  | threw (msg : String)
deriving DecidableEq, Repr

/-- Whether the OS handed back a process with a pid. -/
def SpawnOutcome.hasPid : SpawnOutcome → Bool
  | SpawnOutcome.ok _ => true
  | _ => false

/-- Return value of `spawnSession`: `{success: true, session, viewerUrl}` or
`{success: false, error}`. -/
inductive SpawnResult
  | ok (session : Session) (viewerUrl : String)
  | err (error : String)
deriving DecidableEq, Repr

/-- Whether a spawn result is the success variant. -/
def SpawnResult.isOk : SpawnResult → Bool
  | SpawnResult.ok _ _ => true
  | SpawnResult.err _ => false

/-- Whether a spawn result is the failure variant. -/
def SpawnResult.isErr : SpawnResult → Bool
  | SpawnResult.ok _ _ => false
  | SpawnResult.err _ => true

/-- The project list rendered into the unknown-project error message
(`available || "none"`). -/
def availableProjects (cfg : WakeConfig) : String :=
  let joined := String.intercalate ", " (cfg.projects.map (fun p => p.name))
  if joined = "" then "none" else joined

/-- The synchronous prelude of `spawnSession`, everything before
`await getNgrokUrl()`: the admission check and the project resolution.
Returns the resolved project path or the error result. -/
def spawnCheck (st : ManagerState) (projectName : String) : Except String String :=
  if canSpawnSession st = false then
    Except.error ("Max concurrent sessions (" ++ toString st.config.maxConcurrentSessions ++ ") reached")
  else
    match resolveProjectPath st.config projectName with
    | none => Except.error ("Project '" ++ projectName ++ "' not found. Available: " ++ availableProjects st.config)
    | some projectPath => Except.ok projectPath

/-- The continuation of `spawnSession` after the `await getNgrokUrl()`
suspension point: the ngrok check, id generation, the OS spawn (with its
pid check and try/catch), session construction and registration.  Note that
the admission check is *not* re-run here.  The caller-timeout timer re-uses
`killSession` later and has no immediate state effect. -/
def spawnFinish (st : ManagerState) (projectName task projectPath : String)
    (ngrokUrl : Option String) (timestamp : Nat) (random : String)
    (outcome : SpawnOutcome) : SpawnResult × ManagerState :=
  match ngrokUrl with
  | none => (SpawnResult.err "Ngrok tunnel not available. Check ngrok is running.", st)
  | some url =>
    let sessionId := generateSessionId timestamp random
    match outcome with
    | SpawnOutcome.threw msg =>
      (SpawnResult.err ("Failed to spawn Claude Code: " ++ msg), st)
    | SpawnOutcome.noPid =>
      (SpawnResult.err "Failed to spawn Claude Code process (no PID)", st)
    | SpawnOutcome.ok pid =>
      let session : Session :=
        { sessionId := sessionId, project := projectName, projectPath := projectPath,
          task := task, pid := pid, startTime := timestamp,
          status := SessionStatus.running, events := [], clients := [] }
      (SpawnResult.ok session (url ++ "/viewer?session=" ++ sessionId),
       { st with sessions := setS st.sessions sessionId session })

/-- `spawnSession` run without interleaving: the prelude followed
immediately by the continuation. -/
def spawnSessionSeq (st : ManagerState) (projectName task : String)
    (ngrokUrl : Option String) (timestamp : Nat) (random : String)
    (outcome : SpawnOutcome) : SpawnResult × ManagerState :=
  match spawnCheck st projectName with
  | Except.error e => (SpawnResult.err e, st)
  | Except.ok projectPath =>
    spawnFinish st projectName task projectPath ngrokUrl timestamp random outcome

/-- Status of the registered session with the given id. -/
def statusOf (st : ManagerState) (sid : String) : Option SessionStatus :=
  (getS st.sessions sid).map (fun s => s.status)

/-- Raw event log of the registered session with the given id. -/
def eventsOf (st : ManagerState) (sid : String) : Option (List StreamEvent) :=
  (getS st.sessions sid).map (fun s => s.events)

/-- Feed a list of parsed stdout records through `handleEvent` in order. -/
def applyEvents (st : ManagerState) (sid : String) (evs : List StreamEvent) : ManagerState :=
  evs.foldl (fun acc e => handleEvent acc sid e) st

/-- The live-delivery update a list of broadcast raw events applies to one client. -/
def liveUpd (evs : List StreamEvent) (c : Client) : Client :=
  if c.isOpen then { c with sent := c.sent ++ evs.map WireMsg.raw } else c

/-- The full per-session effect of `handleEvent`: mutate the session, then
append the raw event to every open client. -/
def stepSession (s : Session) (e : StreamEvent) : Session :=
  { eventApply s e with clients := appendOpen (WireMsg.raw e) (eventApply s e).clients }

theorem comp_key_pred (sid : String) (s : Session) :
    ((fun kv : String × Session => kv.1 == sid) ∘ (fun kv => if kv.1 == sid then (sid, s) else kv))
      = (fun kv : String × Session => kv.1 == sid) := by
  funext kv
  by_cases h : (kv.1 == sid) = true
  · simp [Function.comp, h]
  · simp only [Bool.not_eq_true] at h
    simp [Function.comp, h]

theorem find?_map_key (l : SessionTable) (sid : String) (s : Session) :
    (l.map (fun kv => if kv.1 == sid then (sid, s) else kv)).find? (fun kv => kv.1 == sid)
      = if (l.find? (fun kv => kv.1 == sid)).isSome then some (sid, s) else none := by
  rw [List.find?_map, comp_key_pred]
  cases hf : l.find? (fun kv => kv.1 == sid) with
  | none => simp
  | some kv =>
    have hp := List.find?_some hf
    have hk : kv.1 = sid := by simpa using hp
    simp [hk]

theorem setS_found (l : SessionTable) (sid : String) (s : Session) (kv : String × Session)
    (hf : l.find? (fun kv => kv.1 == sid) = some kv) :
    setS l sid s = l.map (fun kv => if kv.1 == sid then (sid, s) else kv) := by
  unfold setS
  rw [hf]
  rfl

theorem setS_notfound (l : SessionTable) (sid : String) (s : Session)
    (hf : l.find? (fun kv => kv.1 == sid) = none) :
    setS l sid s = l ++ [(sid, s)] := by
  unfold setS
  rw [hf]
  rfl

theorem getS_setS_self (l : SessionTable) (sid : String) (s : Session) :
    getS (setS l sid s) sid = some s := by
  cases hf : (l.find? (fun kv => kv.1 == sid)) with
  | some kv =>
    rw [setS_found l sid s kv hf]
    unfold getS
    rw [find?_map_key, hf]
    rfl
  | none =>
    rw [setS_notfound l sid s hf]
    unfold getS
    rw [List.find?_append, hf]
    simp [List.find?]

theorem setS_setS (l : SessionTable) (sid : String) (a b : Session) :
    setS (setS l sid a) sid b = setS l sid b := by
  cases hf : (l.find? (fun kv => kv.1 == sid)) with
  | some kv =>
    rw [setS_found l sid a kv hf]
    have h3 : (l.map (fun kv => if kv.1 == sid then (sid, a) else kv)).find?
        (fun kv => kv.1 == sid) = some (sid, a) := by
      rw [find?_map_key, hf]
      rfl
    rw [setS_found _ sid b _ h3, setS_found l sid b kv hf, List.map_map]
    refine List.map_congr_left ?_
    intro kv2 _
    by_cases h : (kv2.1 == sid) = true
    · simp [Function.comp, h]
    · simp only [Bool.not_eq_true] at h
      simp [Function.comp, h]
  | none =>
    rw [setS_notfound l sid a hf]
    have hall : ∀ kv ∈ l, ¬ ((fun kv : String × Session => kv.1 == sid) kv = true) :=
      List.find?_eq_none.mp hf
    have happ : (l ++ [(sid, a)]).find? (fun kv => kv.1 == sid) = some (sid, a) := by
      rw [List.find?_append, hf]
      simp [List.find?]
    rw [setS_found _ sid b _ happ, setS_notfound l sid b hf, List.map_append]
    have hl : l.map (fun kv => if kv.1 == sid then (sid, b) else kv) = l := by
      have hcongr := List.map_congr_left (l := l)
        (f := fun kv : String × Session => if kv.1 == sid then (sid, b) else kv)
        (g := id) ?_
      · simpa using hcongr
      · intro kv hkv
        have hne := hall kv hkv
        simp only [Bool.not_eq_true] at hne
        simp [hne]
    rw [hl]
    simp

theorem getS_none_iff (l : SessionTable) (sid : String) :
    getS l sid = none ↔ l.find? (fun kv => kv.1 == sid) = none := by
  unfold getS
  cases l.find? (fun kv => kv.1 == sid) <;> simp

theorem eventApply_clients (s : Session) (e : StreamEvent) :
    (eventApply s e).clients = s.clients := by
  unfold eventApply
  by_cases h1 : e.type = "result" <;> by_cases h2 : e.subtype = some "success" <;> simp [h1, h2]

theorem eventApply_events (s : Session) (e : StreamEvent) :
    (eventApply s e).events = s.events ++ [e] := by
  unfold eventApply
  by_cases h1 : e.type = "result" <;> by_cases h2 : e.subtype = some "success" <;> simp [h1, h2]

theorem broadcast_after_set (st : ManagerState) (sid : String) (s2 : Session) (m : WireMsg) :
    broadcast { st with sessions := setS st.sessions sid s2 } sid m
      = { st with sessions := setS st.sessions sid ({ s2 with clients := appendOpen m s2.clients }) } := by
  unfold broadcast
  simp only [getS_setS_self]
  simp [setS_setS]

theorem stepSession_clients (s : Session) (e : StreamEvent) :
    (stepSession s e).clients = appendOpen (WireMsg.raw e) s.clients := by
  unfold stepSession
  rw [eventApply_clients]

theorem handleEvent_some (st : ManagerState) (sid : String) (s : Session) (e : StreamEvent)
    (h : getS st.sessions sid = some s) :
    handleEvent st sid e = { st with sessions := setS st.sessions sid (stepSession s e) } := by
  unfold handleEvent
  rw [h]
  show broadcast { st with sessions := setS st.sessions sid (eventApply s e) } sid (WireMsg.raw e)
      = { st with sessions := setS st.sessions sid (stepSession s e) }
  rw [broadcast_after_set]
  unfold stepSession
  rw [eventApply_clients]

theorem applyEvents_some (sid : String) (evs : List StreamEvent) :
    ∀ (st : ManagerState) (s : Session), getS st.sessions sid = some s →
    ∃ s2, getS (applyEvents st sid evs).sessions sid = some s2 ∧
      s2.clients = s.clients.map (liveUpd evs) := by
  induction evs with
  | nil =>
    intro st s h
    refine ⟨s, h, ?_⟩
    have hid : ∀ c ∈ s.clients, liveUpd [] c = id c := by
      intro c _
      obtain ⟨cid, op, sent⟩ := c
      unfold liveUpd
      cases op <;> simp
    rw [List.map_congr_left hid]
    simp
  | cons e evs ih =>
    intro st s h
    have hstep := handleEvent_some st sid s e h
    have hget : getS ((handleEvent st sid e).sessions) sid = some (stepSession s e) := by
      rw [hstep]
      exact getS_setS_self _ _ _
    obtain ⟨s2, hs2, hcl⟩ := ih (handleEvent st sid e) (stepSession s e) hget
    refine ⟨s2, ?_, ?_⟩
    · simpa [applyEvents] using hs2
    · rw [hcl, stepSession_clients]
      unfold appendOpen
      rw [List.map_map]
      refine List.map_congr_left ?_
      intro c _
      obtain ⟨cid, op, sent⟩ := c
      cases op <;> simp [Function.comp, liveUpd]

theorem killSession_eq (st : ManagerState) (sid : String) (s : Session) (b : Bool)
    (h : getS st.sessions sid = some s)
    (hcond : ¬(s.status = SessionStatus.running ∧ b = true)) :
    killSession st sid b =
      ({ success := true },
       { st with sessions := setS st.sessions sid { s with status := SessionStatus.complete, clients := appendOpen (WireMsg.note (ServerNote.killed sid)) s.clients } }) := by
  unfold killSession
  rw [h]
  dsimp only
  rw [if_neg (by simpa using hcond)]
  rw [broadcast_after_set]

theorem onExit_terminal (st : ManagerState) (sid : String) (s : Session) (code : Int)
    (h : getS st.sessions sid = some s) (hs : s.status ≠ SessionStatus.running) :
    onExit st sid code = st := by
  unfold onExit
  rw [h]
  dsimp only
  rw [if_neg hs]

theorem onProcError_eq (st : ManagerState) (sid : String) (s : Session) (msg : String)
    (h : getS st.sessions sid = some s) :
    onProcError st sid msg =
      { st with sessions := setS st.sessions sid { s with status := SessionStatus.error, error := some msg, clients := appendOpen (WireMsg.note (ServerNote.errorNote msg)) s.clients } } := by
  unfold onProcError
  rw [h]
  dsimp only
  rw [broadcast_after_set]

/-- C10: `normalizeEvent` returns the empty list for every raw event whose
type is not "assistant", "user", or "result" — every unrecognized record
type (not only "system" records) contributes nothing to the normalized
stream. -/
theorem C10_unknown_type_normalizes_to_nothing (raw : StreamEvent)
    (h1 : raw.type ≠ "assistant") (h2 : raw.type ≠ "user") (h3 : raw.type ≠ "result") :
    normalizeEvent raw = [] := by
  unfold normalizeEvent
  by_cases hs : raw.type = "system"
  · rw [if_pos hs]
  · rw [if_neg hs, if_neg h1, if_neg h2, if_neg h3]
    rfl

/-- Witness for C10 at the concrete unrecognized record type "tool". -/
theorem C10_witness :
    ({ type := "tool" } : StreamEvent).type ≠ "assistant" ∧
    ({ type := "tool" } : StreamEvent).type ≠ "user" ∧
    ({ type := "tool" } : StreamEvent).type ≠ "result" ∧
    normalizeEvent { type := "tool" } = [] :=
  ⟨by decide, by decide, by decide,
   C10_unknown_type_normalizes_to_nothing { type := "tool" } (by decide) (by decide) (by decide)⟩

/-- C9: a stdout line that is not parseable as a structured record is dropped
silently — the state is untouched, so no event is appended, and the session's
status and result are unchanged; in the model `processLine` is total, so no
fault escapes. -/
theorem C9_malformed_line_dropped (parseJson : String → Option StreamEvent)
    (st : ManagerState) (sid : String) (line : String) (h : parseJson line = none) :
    processLine parseJson st sid line = st ∧
    eventsOf (processLine parseJson st sid line) sid = eventsOf st sid ∧
    statusOf (processLine parseJson st sid line) sid = statusOf st sid := by
  have heq : processLine parseJson st sid line = st := by
    unfold processLine
    rw [h]
  exact ⟨heq, by rw [heq], by rw [heq]⟩

/-- A one-project, limit-1 configuration used in concrete instances. -/
def cfgOne : WakeConfig :=
  { maxConcurrentSessions := 1, projects := [{ name := "demo", path := "/srv/demo" }] }

/-- A single open subscriber with an empty delivery log. -/
def clientA : Client := { cid := 0, isOpen := true, sent := [] }

/-- A running registered session with one open subscriber. -/
def sessionRunning : Session :=
  { sessionId := "s1", project := "demo", projectPath := "/srv/demo", task := "list files",
    pid := 41, startTime := 100, status := SessionStatus.running, events := [], clients := [clientA] }

/-- Registry holding the one running session. -/
def stRunning : ManagerState := { sessions := [("s1", sessionRunning)], config := cfgOne }

/-- The same session after a failure marked it terminal `error`. -/
def sessionErrored : Session :=
  { sessionRunning with status := SessionStatus.error, error := some "boom" }

/-- Registry holding the one errored session. -/
def stErrored : ManagerState := { sessions := [("s1", sessionErrored)], config := cfgOne }

/-- Witness for C9: a non-JSON line against the concrete running registry. -/
theorem C9_witness :
    (fun _ : String => (none : Option StreamEvent)) "not json" = none ∧
    (processLine (fun _ => none) stRunning "s1" "not json" = stRunning ∧
     eventsOf (processLine (fun _ => none) stRunning "s1" "not json") "s1" = eventsOf stRunning "s1" ∧
     statusOf (processLine (fun _ => none) stRunning "s1" "not json") "s1" = statusOf stRunning "s1") :=
  ⟨rfl, C9_malformed_line_dropped (fun _ => none) stRunning "s1" "not json" rfl⟩

/-- C6: a tool-invocation block whose string input has 5000 characters
normalizes to a `tool_use` event carrying the first 2000 characters followed
by the elision marker stating "3000 more chars"; and in general every string
longer than 2000 characters keeps a prefix of exactly 2000 characters with a
marker stating `length - 2000` as the cut count. -/
theorem C6_tool_input_truncation (s tool : String) (h5 : s.length = 5000) (htool : tool ≠ "") :
    normalizeEvent { type := "assistant", message := some [{ type := "tool_use", name := some tool, input := some (InputVal.str s) }] }
      = [NormalizedEvent.tool_use tool (strTake s 2000 ++ "\n... (truncated, 3000 more chars)")] ∧
    (∀ s2 : String, 2000 < s2.length →
      truncate (some s2) 2000 = strTake s2 2000 ++ truncMarker (s2.length - 2000) ∧
      (strTake s2 2000).length = 2000) := by
  constructor
  · have ht : truncate (some s) 2000 = strTake s 2000 ++ "\n... (truncated, 3000 more chars)" := by
      unfold truncate
      dsimp only
      rw [if_neg (by rw [h5]; decide), if_neg (by rw [h5]; decide), h5]
      rfl
    simp [normalizeEvent, toolInputString, htool, ht]
  · intro s2 hlen
    constructor
    · unfold truncate
      dsimp only
      rw [if_neg (by omega), if_neg (by omega)]
    · show (String.mk (s2.data.take 2000)).length = 2000
      rw [String.length_mk, List.length_take]
      have hd : s2.length = s2.data.length := rfl
      omega

/-- C5: subscribing with an unknown session id sends exactly one error
notification and closes the channel leaving the state untouched; subscribing
to a known session registers the handle and the subscriber's delivery log
after any sequence of later live events is: its previous messages, the
connection note, the N recorded raw events exactly once in original
order, and only then the live events in arrival order. -/
theorem C5_subscribe_replay_then_live (st : ManagerState) (sid : String) (c : Client)
    (evs : List StreamEvent) :
    (getS st.sessions sid = none →
       addClient st sid c = (AddClientResult.rejected [WireMsg.note (ServerNote.errorNote "Session not found")] true, st)) ∧
    (∀ s, getS st.sessions sid = some s → c.isOpen = true →
       (addClient st sid c).1 = AddClientResult.accepted ∧
       ∃ s2, getS (applyEvents (addClient st sid c).2 sid evs).sessions sid = some s2 ∧
         s2.clients = s.clients.map (liveUpd evs) ++ [{ c with sent := c.sent ++ WireMsg.note (ServerNote.connected sid) :: (s.events.map WireMsg.raw ++ evs.map WireMsg.raw) }]) := by
  constructor
  · intro h
    unfold addClient
    rw [h]
  · intro s h hopen
    have haddr : addClient st sid c
        = (AddClientResult.accepted,
           { st with sessions := setS st.sessions sid { s with clients := s.clients ++ [{ c with sent := c.sent ++ WireMsg.note (ServerNote.connected sid) :: s.events.map WireMsg.raw }] } }) := by
      unfold addClient
      rw [h]
    refine ⟨by rw [haddr], ?_⟩
    rw [haddr]
    dsimp only
    have hget := getS_setS_self st.sessions sid
      { s with clients := s.clients ++ [{ c with sent := c.sent ++ WireMsg.note (ServerNote.connected sid) :: s.events.map WireMsg.raw }] }
    obtain ⟨s2, hg, hcl⟩ := applyEvents_some sid evs
      { st with sessions := setS st.sessions sid { s with clients := s.clients ++ [{ c with sent := c.sent ++ WireMsg.note (ServerNote.connected sid) :: s.events.map WireMsg.raw }] } }
      { s with clients := s.clients ++ [{ c with sent := c.sent ++ WireMsg.note (ServerNote.connected sid) :: s.events.map WireMsg.raw }] }
      hget
    refine ⟨s2, hg, ?_⟩
    rw [hcl]
    dsimp only
    rw [List.map_append]
    congr 1
    unfold liveUpd
    simp [hopen, List.append_assoc]

/-- A recorded assistant text event used in concrete instances. -/
def evAssistantHi : StreamEvent :=
  { type := "assistant", message := some [{ type := "text", text := some "hi" }] }

/-- A terminal success result event used in concrete instances. -/
def evResultDone : StreamEvent :=
  { type := "result", subtype := some "success", result := some "done" }

/-- The running session with one raw event already recorded. -/
def sessionWithHistory : Session := { sessionRunning with events := [evAssistantHi] }

/-- Registry holding the session with history. -/
def stWithHistory : ManagerState := { sessions := [("s1", sessionWithHistory)], config := cfgOne }

/-- A second, fresh open subscriber. -/
def clientB : Client := { cid := 1, isOpen := true, sent := [] }

/-- Witness for C5: subscribing to the session with one recorded event and
then one live event. -/
theorem C5_witness :
    getS stWithHistory.sessions "s1" = some sessionWithHistory ∧ clientB.isOpen = true ∧
    ((addClient stWithHistory "s1" clientB).1 = AddClientResult.accepted ∧
     ∃ s2, getS (applyEvents (addClient stWithHistory "s1" clientB).2 "s1" [evResultDone]).sessions "s1" = some s2 ∧
       s2.clients = sessionWithHistory.clients.map (liveUpd [evResultDone]) ++ [{ clientB with sent := clientB.sent ++ WireMsg.note (ServerNote.connected "s1") :: (sessionWithHistory.events.map WireMsg.raw ++ [evResultDone].map WireMsg.raw) }]) :=
  ⟨by decide, by decide,
   (C5_subscribe_replay_then_live stWithHistory "s1" clientB [evResultDone]).2
     sessionWithHistory (by decide) (by decide)⟩

theorem statusOf_set (st : ManagerState) (sid : String) (s2 : Session) :
    statusOf { st with sessions := setS st.sessions sid s2 } sid = some s2.status := by
  unfold statusOf
  dsimp only
  rw [getS_setS_self]
  rfl

/-- Counterexample to C1: killing a session whose status is already terminal
`error` reports success and moves the status to `complete` — a terminal
status is changed by a later signal. -/
theorem C1_counterexample :
    statusOf stErrored "s1" = some SessionStatus.error ∧
    (killSession stErrored "s1" false).1.success = true ∧
    statusOf (killSession stErrored "s1" false).2 "s1" = some SessionStatus.complete := by
  decide

/-- C1 amended: only the process-exit observer leaves a terminal status
unchanged.  A kill request forces any registered session's status to
`complete`, a process `error` event forces it to `error`, and a later
terminal `result` stream event overwrites it according to its subtype —
even when the status was already `complete` or `error`. -/
theorem C1_amended_terminal_status (st : ManagerState) (sid : String) (s : Session)
    (code : Int) (b : Bool) (msg : String) (ev : StreamEvent)
    (h : getS st.sessions sid = some s) (hterm : s.status ≠ SessionStatus.running) :
    onExit st sid code = st ∧
    statusOf (killSession st sid b).2 sid = some SessionStatus.complete ∧
    statusOf (onProcError st sid msg) sid = some SessionStatus.error ∧
    (ev.type = "result" → statusOf (handleEvent st sid ev) sid
        = some (if ev.subtype = some "success" then SessionStatus.complete else SessionStatus.error)) := by
  refine ⟨onExit_terminal st sid s code h hterm, ?_, ?_, ?_⟩
  · rw [killSession_eq st sid s b h (fun hc => hterm hc.1)]
    exact statusOf_set st sid _
  · rw [onProcError_eq st sid s msg h]
    exact statusOf_set st sid _
  · intro hres
    rw [handleEvent_some st sid s ev h]
    rw [statusOf_set st sid _]
    have hstat : (stepSession s ev).status
        = (if ev.subtype = some "success" then SessionStatus.complete else SessionStatus.error) := by
      show (eventApply s ev).status = _
      unfold eventApply
      rw [if_pos hres]
      by_cases hsub : ev.subtype = some "success" <;> simp [hsub]
    rw [hstat]

/-- Witness for C1 (amended) at the concrete errored session. -/
theorem C1_witness :
    getS stErrored.sessions "s1" = some sessionErrored ∧
    sessionErrored.status ≠ SessionStatus.running ∧
    (onExit stErrored "s1" 1 = stErrored ∧
     statusOf (killSession stErrored "s1" false).2 "s1" = some SessionStatus.complete ∧
     statusOf (onProcError stErrored "s1" "spawn failure") "s1" = some SessionStatus.error ∧
     (evResultDone.type = "result" → statusOf (handleEvent stErrored "s1" evResultDone) "s1"
        = some (if evResultDone.subtype = some "success" then SessionStatus.complete else SessionStatus.error))) :=
  ⟨by decide, by decide,
   C1_amended_terminal_status stErrored "s1" sessionErrored 1 false "spawn failure" evResultDone
     (by decide) (by decide)⟩

/-- Recognizer for the "killed" server note. -/
def isKilledNote : WireMsg → Bool
  | WireMsg.note (ServerNote.killed _) => true
  | _ => false

/-- Number of "killed" notifications in a delivery log. -/
def countKilled (l : List WireMsg) : Nat :=
  (l.filter isKilledNote).length

/-- Delivery log of the client with the given id subscribed to the given session. -/
def sentTo (st : ManagerState) (sid : String) (cid : Nat) : List WireMsg :=
  match getS st.sessions sid with
  | some s =>
    match s.clients.find? (fun c => c.cid == cid) with
    | some c => c.sent
    | none => []
  | none => []

/-- Counterexample to C2: killing the same running session twice reports
success both times, but the open subscriber receives the "killed"
notification twice, not once — the broadcast is not suppressed on the
second, already-complete kill. -/
theorem C2_counterexample :
    (killSession stRunning "s1" false).1.success = true ∧
    (killSession (killSession stRunning "s1" false).2 "s1" false).1.success = true ∧
    countKilled (sentTo (killSession (killSession stRunning "s1" false).2 "s1" false).2 "s1" 0) = 2 ∧
    ¬ countKilled (sentTo (killSession (killSession stRunning "s1" false).2 "s1" false).2 "s1" 0) = 1 := by
  decide

/-- C2 amended: invoking kill twice on a registered running session (with the
first SIGTERM delivered without throwing) returns success both times, and each
invocation broadcasts one "killed" notification, so every open subscriber
receives exactly two "killed" notifications, not one. -/
theorem C2_amended_double_kill (st : ManagerState) (sid : String) (s : Session) (b2 : Bool)
    (h : getS st.sessions sid = some s) (_hr : s.status = SessionStatus.running) :
    (killSession st sid false).1.success = true ∧
    (killSession (killSession st sid false).2 sid b2).1.success = true ∧
    ∃ s2, getS (killSession (killSession st sid false).2 sid b2).2.sessions sid = some s2 ∧
      s2.clients = s.clients.map (fun oc => if oc.isOpen = true then { oc with sent := oc.sent ++ [WireMsg.note (ServerNote.killed sid), WireMsg.note (ServerNote.killed sid)] } else oc) := by
  have h1 := killSession_eq st sid s false h (by simp)
  have hget1 := getS_setS_self st.sessions sid
    { s with status := SessionStatus.complete, clients := appendOpen (WireMsg.note (ServerNote.killed sid)) s.clients }
  have hcond2 : ¬({ s with status := SessionStatus.complete, clients := appendOpen (WireMsg.note (ServerNote.killed sid)) s.clients }.status = SessionStatus.running ∧ b2 = true) := by
    intro hc
    simpa using hc.1
  have h2 := killSession_eq
    { st with sessions := setS st.sessions sid { s with status := SessionStatus.complete, clients := appendOpen (WireMsg.note (ServerNote.killed sid)) s.clients } }
    sid
    { s with status := SessionStatus.complete, clients := appendOpen (WireMsg.note (ServerNote.killed sid)) s.clients }
    b2 hget1 hcond2
  rw [h1]
  dsimp only
  rw [h2]
  dsimp only
  rw [setS_setS]
  refine ⟨rfl, rfl, _, getS_setS_self _ _ _, ?_⟩
  show appendOpen (WireMsg.note (ServerNote.killed sid)) (appendOpen (WireMsg.note (ServerNote.killed sid)) s.clients) = _
  unfold appendOpen
  rw [List.map_map]
  refine List.map_congr_left ?_
  intro oc _
  obtain ⟨cid, op, sent⟩ := oc
  cases op <;> simp [Function.comp]

/-- Witness for C2 (amended) at the concrete running session with one open
subscriber. -/
theorem C2_witness :
    getS stRunning.sessions "s1" = some sessionRunning ∧
    sessionRunning.status = SessionStatus.running ∧
    ((killSession stRunning "s1" false).1.success = true ∧
     (killSession (killSession stRunning "s1" false).2 "s1" false).1.success = true ∧
     ∃ s2, getS (killSession (killSession stRunning "s1" false).2 "s1" false).2.sessions "s1" = some s2 ∧
       s2.clients = sessionRunning.clients.map (fun oc => if oc.isOpen = true then { oc with sent := oc.sent ++ [WireMsg.note (ServerNote.killed "s1"), WireMsg.note (ServerNote.killed "s1")] } else oc)) :=
  ⟨by decide, by decide,
   C2_amended_double_kill stRunning "s1" sessionRunning false (by decide) (by decide)⟩

/-- Registry with no sessions under the limit-1 configuration. -/
def stEmpty : ManagerState := { sessions := [], config := cfgOne }

theorem runningCount_append_one (l : SessionTable) (x : String × Session) :
    runningCount (l ++ [x])
      = runningCount l + (if x.2.status == SessionStatus.running then 1 else 0) := by
  unfold runningCount
  rw [List.filter_append, List.length_append]
  cases hx : (x.2.status == SessionStatus.running) <;> simp [List.filter, hx]

theorem spawnCheck_ok_canSpawn (st : ManagerState) (pn path : String)
    (h : spawnCheck st pn = Except.ok path) : canSpawnSession st = true := by
  unfold spawnCheck at h
  by_cases hc : canSpawnSession st = false
  · rw [if_pos hc] at h
    exact absurd h (by simp)
  · simpa using hc

theorem spawnSeq_err_unchanged (st : ManagerState) (pn task : String)
    (ng : Option String) (t : Nat) (r : String) (oc : SpawnOutcome) :
    (spawnSessionSeq st pn task ng t r oc).1.isErr = true →
    (spawnSessionSeq st pn task ng t r oc).2 = st := by
  unfold spawnSessionSeq spawnFinish
  cases spawnCheck st pn with
  | error e => intro _; rfl
  | ok path =>
    cases ng with
    | none => intro _; rfl
    | some url =>
      cases oc with
      | threw m => intro _; rfl
      | noPid => intro _; rfl
      | ok pid =>
        intro h
        dsimp only at h
        simp [SpawnResult.isErr] at h

/-- Counterexample to C3: the admission check and the session insertion are
separated by the awaited ngrok lookup, so two spawns can interleave: both
admission checks pass on the empty registry, then both continuations insert,
leaving 2 running sessions under a configured maximum of 1. -/
theorem C3_counterexample :
    spawnCheck stEmpty "demo" = Except.ok "/srv/demo" ∧
    runningCount ((spawnFinish ((spawnFinish stEmpty "demo" "task a" "/srv/demo" (some "https://t") 100 "aaaaaa" (SpawnOutcome.ok 51)).2) "demo" "task b" "/srv/demo" (some "https://t") 100 "bbbbbb" (SpawnOutcome.ok 52)).2).sessions = 2 ∧
    stEmpty.config.maxConcurrentSessions = 1 :=
  ⟨rfl, by decide, rfl⟩

/-- C3 amended: when spawns do not interleave (the prelude and continuation
run back-to-back) and the generated id is fresh, each spawn preserves the
bound: the count of running sessions never exceeds the configured maximum.
The unguarded window exists only across the awaited tunnel resolution. -/
theorem C3_amended_sequential_bound (st : ManagerState) (pn task : String)
    (ng : Option String) (t : Nat) (r : String) (oc : SpawnOutcome)
    (hfresh : getS st.sessions (generateSessionId t r) = none)
    (hinv : runningCount st.sessions ≤ st.config.maxConcurrentSessions) :
    runningCount (spawnSessionSeq st pn task ng t r oc).2.sessions
      ≤ st.config.maxConcurrentSessions := by
  unfold spawnSessionSeq
  cases hchk : spawnCheck st pn with
  | error e => exact hinv
  | ok path =>
    have hcan := spawnCheck_ok_canSpawn st pn path hchk
    have hlt : runningCount st.sessions < st.config.maxConcurrentSessions :=
      of_decide_eq_true hcan
    unfold spawnFinish
    cases ng with
    | none => exact hinv
    | some url =>
      cases oc with
      | threw m => exact hinv
      | noPid => exact hinv
      | ok pid =>
        dsimp only
        rw [setS_notfound _ _ _ ((getS_none_iff _ _).mp hfresh)]
        rw [runningCount_append_one]
        have hred : ((SessionStatus.running == SessionStatus.running) = true) := by decide
        rw [if_pos hred]
        omega

/-- Witness for C3 (amended): a sequential spawn on the empty registry stays
within the bound. -/
theorem C3_witness :
    getS stEmpty.sessions (generateSessionId 100 "abc123") = none ∧
    runningCount stEmpty.sessions ≤ stEmpty.config.maxConcurrentSessions ∧
    runningCount (spawnSessionSeq stEmpty "demo" "list files" (some "https://t") 100 "abc123" (SpawnOutcome.ok 51)).2.sessions ≤ stEmpty.config.maxConcurrentSessions :=
  ⟨by decide, by decide,
   C3_amended_sequential_bound stEmpty "demo" "list files" (some "https://t") 100 "abc123"
     (SpawnOutcome.ok 51) (by decide) (by decide)⟩

/-- Counterexample to C4: on an empty registry (R = 0 < L = 1) a spawn naming
an unknown project still fails — spawn success is not equivalent to R < L. -/
theorem C4_counterexample :
    runningCount stEmpty.sessions < stEmpty.config.maxConcurrentSessions ∧
    (spawnSessionSeq stEmpty "ghost" "task" (some "https://t") 100 "aaaaaa" (SpawnOutcome.ok 51)).1.isErr = true :=
  ⟨by decide, rfl⟩

/-- C4 amended: provided the project name resolves, the tunnel URL is
available, and the OS spawn yields a pid, a spawn request succeeds if and
only if the running count is below the configured limit. -/
theorem C4_amended_success_iff_admitted (st : ManagerState) (pn task path url : String)
    (t : Nat) (r : String) (pid : Nat)
    (hres : resolveProjectPath st.config pn = some path) :
    (spawnSessionSeq st pn task (some url) t r (SpawnOutcome.ok pid)).1.isOk = true ↔
      runningCount st.sessions < st.config.maxConcurrentSessions := by
  unfold spawnSessionSeq spawnCheck
  by_cases hc : canSpawnSession st = false
  · rw [if_pos hc]
    constructor
    · intro habs
      simp [SpawnResult.isOk] at habs
    · intro hlt
      have htrue : canSpawnSession st = true := decide_eq_true hlt
      rw [htrue] at hc
      cases hc
  · rw [if_neg hc, hres]
    constructor
    · intro _
      have hcan : canSpawnSession st = true := by
        cases hcs : canSpawnSession st
        · exact absurd hcs hc
        · rfl
      exact of_decide_eq_true hcan
    · intro _
      rfl

/-- Witness for C4 (amended) on the empty registry with the known project. -/
theorem C4_witness :
    resolveProjectPath stEmpty.config "demo" = some "/srv/demo" ∧
    ((spawnSessionSeq stEmpty "demo" "task" (some "https://t") 100 "aaaaaa" (SpawnOutcome.ok 51)).1.isOk = true ↔
      runningCount stEmpty.sessions < stEmpty.config.maxConcurrentSessions) :=
  ⟨by decide,
   C4_amended_success_iff_admitted stEmpty "demo" "task" "/srv/demo" "https://t" 100 "aaaaaa" 51 (by decide)⟩

/-- C7: every failing spawn — concurrency limit reached, unknown project,
unavailable tunnel URL, or OS spawn failure (throw or missing pid) — returns
an explicit error result and leaves the registry exactly as it was: no
session is created.  In the model every path is a total function, so no
fault escapes. -/
theorem C7_failed_spawn_no_session (st : ManagerState) (pn task : String)
    (ng : Option String) (t : Nat) (r : String) (oc : SpawnOutcome) :
    ((spawnSessionSeq st pn task ng t r oc).1.isErr = true →
      (spawnSessionSeq st pn task ng t r oc).2 = st) ∧
    ((canSpawnSession st = false ∨ resolveProjectPath st.config pn = none ∨ ng = none ∨ oc.hasPid = false) →
      (spawnSessionSeq st pn task ng t r oc).1.isErr = true ∧
      (spawnSessionSeq st pn task ng t r oc).2 = st) := by
  refine ⟨spawnSeq_err_unchanged st pn task ng t r oc, ?_⟩
  intro hcause
  have herr : (spawnSessionSeq st pn task ng t r oc).1.isErr = true := by
    unfold spawnSessionSeq spawnCheck
    rcases hcause with hc | hr | hn | hp
    · rw [if_pos hc]
      rfl
    · by_cases hcs : canSpawnSession st = false
      · rw [if_pos hcs]; rfl
      · rw [if_neg hcs, hr]; rfl
    · subst hn
      by_cases hcs : canSpawnSession st = false
      · rw [if_pos hcs]; rfl
      · rw [if_neg hcs]
        cases resolveProjectPath st.config pn with
        | none => rfl
        | some path => rfl
    · by_cases hcs : canSpawnSession st = false
      · rw [if_pos hcs]; rfl
      · rw [if_neg hcs]
        cases resolveProjectPath st.config pn with
        | none => rfl
        | some path =>
          cases ng with
          | none => rfl
          | some url =>
            cases oc with
            | ok pid => simp [SpawnOutcome.hasPid] at hp
            | noPid => rfl
            | threw m => rfl
  exact ⟨herr, spawnSeq_err_unchanged st pn task ng t r oc herr⟩

/-- Witness for C7: the unknown-project failure on the empty registry. -/
theorem C7_witness :
    resolveProjectPath stEmpty.config "ghost" = none ∧
    ((spawnSessionSeq stEmpty "ghost" "task" (some "https://t") 100 "aaaaaa" (SpawnOutcome.ok 51)).1.isErr = true ∧
     (spawnSessionSeq stEmpty "ghost" "task" (some "https://t") 100 "aaaaaa" (SpawnOutcome.ok 51)).2 = stEmpty) :=
  ⟨by decide,
   (C7_failed_spawn_no_session stEmpty "ghost" "task" (some "https://t") 100 "aaaaaa" (SpawnOutcome.ok 51)).2
     (Or.inr (Or.inl (by decide)))⟩

/-- Two-slot configuration for the id-collision run. -/
def cfgTwo : WakeConfig :=
  { maxConcurrentSessions := 2, projects := [{ name := "demo", path := "/srv/demo" }] }

/-- Empty registry under the two-slot configuration. -/
def stEmptyTwo : ManagerState := { sessions := [], config := cfgTwo }

/-- The session carried by a successful spawn result. -/
def spawnedSession : SpawnResult → Option Session
  | SpawnResult.ok s _ => some s
  | SpawnResult.err _ => none

/-- Counterexample to C8: two successful spawns in the same second whose
`Math.random` suffixes collide produce two distinct sessions (different
tasks) carrying the same session id — the derivation does not guarantee
uniqueness over all outcomes. -/
theorem C8_counterexample :
    (spawnSessionSeq stEmptyTwo "demo" "task a" (some "https://t") 100 "abc123" (SpawnOutcome.ok 51)).1.isOk = true ∧
    (spawnSessionSeq (spawnSessionSeq stEmptyTwo "demo" "task a" (some "https://t") 100 "abc123" (SpawnOutcome.ok 51)).2 "demo" "task b" (some "https://t") 100 "abc123" (SpawnOutcome.ok 52)).1.isOk = true ∧
    (spawnedSession (spawnSessionSeq stEmptyTwo "demo" "task a" (some "https://t") 100 "abc123" (SpawnOutcome.ok 51)).1).map (fun s => s.sessionId)
      = (spawnedSession (spawnSessionSeq (spawnSessionSeq stEmptyTwo "demo" "task a" (some "https://t") 100 "abc123" (SpawnOutcome.ok 51)).2 "demo" "task b" (some "https://t") 100 "abc123" (SpawnOutcome.ok 52)).1).map (fun s => s.sessionId) ∧
    spawnedSession (spawnSessionSeq stEmptyTwo "demo" "task a" (some "https://t") 100 "abc123" (SpawnOutcome.ok 51)).1
      ≠ spawnedSession (spawnSessionSeq (spawnSessionSeq stEmptyTwo "demo" "task a" (some "https://t") 100 "abc123" (SpawnOutcome.ok 51)).2 "demo" "task b" (some "https://t") 100 "abc123" (SpawnOutcome.ok 52)).1 :=
  ⟨rfl, rfl, rfl, by decide⟩

/-- C8 amended: generated ids are distinct whenever the six-character random
suffixes differ (suffixes of equal length); uniqueness can fail only when both
the timestamp string and the random suffix coincide, as the counterexample
shows. -/
theorem C8_amended_distinct_suffix_distinct_id (t1 t2 : Nat) (r1 r2 : String)
    (hlen : r1.length = r2.length) (hne : r1 ≠ r2) :
    generateSessionId t1 r1 ≠ generateSessionId t2 r2 := by
  intro heq
  apply hne
  have h1 := congrArg String.data heq
  unfold generateSessionId at h1
  rw [String.data_append (("wake-" ++ toString t1) ++ "-") r1,
      String.data_append (("wake-" ++ toString t2) ++ "-") r2] at h1
  have hlen2 : r1.data.length = r2.data.length := hlen
  exact String.ext (List.append_inj' h1 hlen2).2

/-- Witness for C8 (amended): same second, suffixes differing in the last
character. -/
theorem C8_witness :
    ("abc123" : String).length = ("abc124" : String).length ∧
    ("abc123" : String) ≠ "abc124" ∧
    generateSessionId 100 "abc123" ≠ generateSessionId 100 "abc124" :=
  ⟨by decide, by decide,
   C8_amended_distinct_suffix_distinct_id 100 100 "abc123" "abc124" (by decide) (by decide)⟩

/-- A concrete 5000-character serialized tool input. -/
def longInput : String := String.mk (List.replicate 5000 'a')

theorem longInput_length : longInput.length = 5000 := by
  unfold longInput
  rw [String.length_mk, List.length_replicate]

/-- Witness for C6: the 5000-character input against a concrete tool block. -/
theorem C6_witness :
    longInput.length = 5000 ∧ ("Bash" : String) ≠ "" ∧
    (normalizeEvent { type := "assistant", message := some [{ type := "tool_use", name := some "Bash", input := some (InputVal.str longInput) }] }
       = [NormalizedEvent.tool_use "Bash" (strTake longInput 2000 ++ "\n... (truncated, 3000 more chars)")] ∧
     (∀ s2 : String, 2000 < s2.length →
       truncate (some s2) 2000 = strTake s2 2000 ++ truncMarker (s2.length - 2000) ∧
       (strTake s2 2000).length = 2000)) :=
  ⟨longInput_length, by decide,
   C6_tool_input_truncation longInput "Bash" longInput_length (by decide)⟩

end Wake
